import Mathlib

/-!
Shallow embedding of `src/homework.py`, a fitness-tracker script that
computes distance, mean speed and spent calories for three workout
variants (Running, SportsWalking, Swimming) and renders a formatted
summary line.

Numbers: the Python code computes with machine floats over a handful of
decimal constants; we model the arithmetic exactly over `ℚ` (every
constant in the source is a decimal literal, hence an exact rational).
Python's float floor-division `//` is modelled as the mathematical floor
`⌊x / y⌋`.  Python exceptions are modelled with `Except`; a Python
`return` of an exception *class* (which the source does twice) is an
ordinary, non-error value and is modelled by a dedicated constructor.
-/

namespace Tracker

/-- A value a calorie method can return.  The base class
`Training.get_spent_calories` executes `return NotImplementedError`,
i.e. it returns the exception class itself as an ordinary value; the
concrete variants return a float.  -/
inductive PyValue where
  | num (q : ℚ)
  | notImplementedErrorClass
  deriving DecidableEq

/-- The workout hierarchy of the source: the instantiable base class
`Training(action, duration, weight)` and its three subclasses.
`SportsWalking.__init__` adds `height`; `Swimming.__init__` adds
`length_pool` and `count_pool`. -/
inductive Training where
  | base (action duration weight : ℚ)
  | running (action duration weight : ℚ)
  | sportsWalking (action duration weight height : ℚ)
  | swimming (action duration weight length_pool count_pool : ℚ)
  deriving DecidableEq

namespace Training

/-- `self.action`, set in `Training.__init__` and shared by all variants. -/
def action : Training → ℚ
  | .base a _ _ => a
  | .running a _ _ => a
  | .sportsWalking a _ _ _ => a
  | .swimming a _ _ _ _ => a

/-- `self.duration`, set in `Training.__init__` and shared by all variants. -/
def duration : Training → ℚ
  | .base _ d _ => d
  | .running _ d _ => d
  | .sportsWalking _ d _ _ => d
  | .swimming _ d _ _ _ => d

/-- `self.weight`, set in `Training.__init__` and shared by all variants. -/
def weight : Training → ℚ
  | .base _ _ w => w
  | .running _ _ w => w
  | .sportsWalking _ _ w _ => w
  | .swimming _ _ w _ _ => w

/-- Class attribute `LEN_STEP`: `0.65` on `Training` (inherited by
`Running` and `SportsWalking`), overridden to `1.38` on `Swimming`. -/
def LEN_STEP : Training → ℚ
  | .swimming _ _ _ _ _ => 1.38
  | _ => 0.65

/-- Class attribute `M_IN_KM = 1000`. -/
def M_IN_KM : ℚ := 1000

/-- Class attribute `MIN_IN_HOUR = 60`. -/
def MIN_IN_HOUR : ℚ := 60

/-- `Training.get_distance`: `self.action * self.LEN_STEP / self.M_IN_KM`.
No variant overrides it. -/
def get_distance (t : Training) : ℚ :=
  t.action * t.LEN_STEP / M_IN_KM

/-- `get_mean_speed`: the base class returns
`self.get_distance() / self.duration`; `Swimming` overrides it with
`value_pool = self.length_pool * self.count_pool;
 return value_pool / self.M_IN_KM / self.duration`. -/
def get_mean_speed : Training → ℚ
  | .swimming _ d _ lp cp =>
      let value_pool := lp * cp
      value_pool / M_IN_KM / d
  | t => t.get_distance / t.duration

/-- `get_spent_calories`.
Base class: `return NotImplementedError` — the class object is returned
as an ordinary value, nothing is raised.
`Running` (with `COEFF_CAL_1 = 18`, `COEFF_CAL_2 = 20`):
`speed = 18 * mean_speed - 20; training_in_min = duration * 60;
 return speed * weight / M_IN_KM * training_in_min`.
`SportsWalking` (with `COEFF_WEIGHT_WLK_1 = 0.035`,
`COEFF_WEIGHT_WLK_2 = 0.029`): `weight_gl_wlk = 0.029 * weight;
 speed_gd_wlk = mean_speed ** 2 // height;
 time_duration = duration * 60;
 return (0.035 * weight + speed_gd_wlk * weight_gl_wlk) * time_duration`.
`Swimming` (with `COEFF_1 = 1.1`, `COEFF_2 = 2`):
`value_weight = 2 * weight; return (mean_speed + 1.1) * value_weight`. -/
def get_spent_calories : Training → PyValue
  | .base _ _ _ => .notImplementedErrorClass
  | t@(.running _ d w) =>
      let speed := 18 * t.get_mean_speed - 20
      let training_in_min := d * MIN_IN_HOUR
      .num (speed * w / M_IN_KM * training_in_min)
  | t@(.sportsWalking _ d w h) =>
      let weight_gl_wlk := 0.029 * w
      let speed_gd_wlk : ℚ := ((⌊t.get_mean_speed ^ 2 / h⌋ : ℤ) : ℚ)
      let time_duration := d * MIN_IN_HOUR
      .num ((0.035 * w + speed_gd_wlk * weight_gl_wlk) * time_duration)
  | t@(.swimming _ _ w _ _) =>
      let value_weight := 2 * w
      .num ((t.get_mean_speed + 1.1) * value_weight)

end Training

/-- The `InfoMessage` dataclass: `training_type: str` and four `float`
fields `duration`, `distance`, `speed`, `calories` (modelled in `ℚ`). -/
structure InfoMessage where
  training_type : String
  duration : ℚ
  distance : ℚ
  speed : ℚ
  calories : ℚ
  deriving DecidableEq

/-- Left-pad the fractional digits to width 3, as Python's `.3f`
format spec does for the three digits after the decimal point. -/
def fracPad3 (n : Nat) : String :=
  if n < 10 then "00" ++ toString n
  else if n < 100 then "0" ++ toString n
  else toString n

/-- Thousandths of `q`, rounded to nearest: Python's `.3f` rounds the
value to three decimal places before printing (ties are vanishingly rare
on binary floats; we model round-to-nearest). -/
def scaled3 (q : ℚ) : ℤ := round (q * 1000)

/-- The part of `format(q, ".3f")` before the decimal point:
an optional minus sign and the integer part of the rounded magnitude. -/
def intPart3 (q : ℚ) : String :=
  (if scaled3 q < 0 then "-" else "") ++ toString ((scaled3 q).natAbs / 1000)

/-- The part of `format(q, ".3f")` after the decimal point:
the last three digits of the rounded magnitude, zero-padded. -/
def fracPart3 (q : ℚ) : String :=
  fracPad3 ((scaled3 q).natAbs % 1000)

/-- Python's `format(q, ".3f")`: fixed-point with exactly three digits
after the decimal point. -/
def formatFixed3 (q : ℚ) : String :=
  intPart3 q ++ "." ++ fracPart3 q

/-- `InfoMessage.get_message`: formats the class attribute `MESSAGE`
template with the five fields, each numeric field through the `.3f`
format spec. -/
def InfoMessage.get_message (m : InfoMessage) : String :=
  "Тип тренировки: " ++ m.training_type ++
  "; Длительность: " ++ formatFixed3 m.duration ++
  " ч.; Дистанция: " ++ formatFixed3 m.distance ++
  " км; Ср. скорость: " ++ formatFixed3 m.speed ++
  " км/ч; Потрачено ккал: " ++ formatFixed3 m.calories ++ "."

/-- `self.__class__.__name__`, the string placed in the summary's
`training_type` field. -/
def Training.className : Training → String
  | .base _ _ _ => "Training"
  | .running _ _ _ => "Running"
  | .sportsWalking _ _ _ _ => "SportsWalking"
  | .swimming _ _ _ _ _ => "Swimming"

/-- `Training.show_training_info`: constructs
`InfoMessage(self.__class__.__name__, self.duration, self.get_distance(),
self.get_mean_speed(), self.get_spent_calories())`.  The source always
builds the record with whatever `get_spent_calories` returned; only the
base class returns a non-numeric value there (the `NotImplementedError`
class), which the typed record cannot hold, so that case is `none`. -/
def Training.show_training_info (t : Training) : Option InfoMessage :=
  match t.get_spent_calories with
  | .num c =>
      some ⟨t.className, t.duration, t.get_distance, t.get_mean_speed, c⟩
  | .notImplementedErrorClass => none

/-- What `read_package` can return (on the paths that do not raise):
either a constructed `Training` instance, or — on an unknown workout
code — the `ValueError` *class itself*, which the source returns as an
ordinary value instead of raising anything. -/
inductive RetVal where
  | training (t : Training)
  | valueErrorClass
  deriving DecidableEq

/-- The exception Python raises when `training_dict.get(workout_type)(*data)`
is called with a `data` whose length does not match the constructor's
arity: a `TypeError` about the argument count. -/
inductive PyErr where
  | typeErrorArgCount
  deriving DecidableEq

/-- `read_package(workout_type, data)`: looks `workout_type` up in
`{'SWM': Swimming, 'RUN': Running, 'WLK': SportsWalking}`.  When the
lookup yields `None` it executes `return ValueError` (an ordinary return
of the exception class).  Otherwise it calls the class with `*data`
spread positionally; a length mismatch raises a `TypeError`, a match
constructs the variant with the parameters in order. -/
def read_package (workout_type : String) (data : List ℚ) :
    Except PyErr RetVal :=
  if workout_type = "SWM" then
    match data with
    | [a, d, w, lp, cp] => .ok (.training (.swimming a d w lp cp))
    | _ => .error .typeErrorArgCount
  else if workout_type = "RUN" then
    match data with
    | [a, d, w] => .ok (.training (.running a d w))
    | _ => .error .typeErrorArgCount
  else if workout_type = "WLK" then
    match data with
    | [a, d, w, h] => .ok (.training (.sportsWalking a d w h))
    | _ => .error .typeErrorArgCount
  else
    .ok .valueErrorClass

end Tracker

namespace Tracker

set_option maxRecDepth 8192 in
/-- Helper: on inputs below `1000` (the range `scaled3 q` is reduced to
modulo `1000`), `fracPad3` always produces exactly three digit
characters. -/
theorem fracPad3_spec : ∀ n : Nat, n < 1000 →
    (fracPad3 n).length = 3 ∧
    (fracPad3 n).toList.all Char.isDigit = true := by decide

/-- C2 counterexample: for `Running` with `action=15000, duration=1,
weight=75` the claimed triple (distance 9.75, mean speed 9.75, calories
683.25) is false: the code's calorie value is 699.75, not 683.25. -/
theorem running_example_not_683_25 :
    ¬((Training.running 15000 1 75).get_distance = 9.75 ∧
      (Training.running 15000 1 75).get_mean_speed = 9.75 ∧
      (Training.running 15000 1 75).get_spent_calories = .num 683.25) := by
  rintro ⟨-, -, hcal⟩
  rw [show (Training.running 15000 1 75).get_spent_calories
      = .num 699.75 by
    norm_num [Training.get_spent_calories, Training.get_mean_speed,
      Training.get_distance, Training.action, Training.duration,
      Training.LEN_STEP, Training.M_IN_KM, Training.MIN_IN_HOUR]] at hcal
  have : (699.75 : ℚ) = 683.25 := by injection hcal
  norm_num at this

/-- C2 (amended): for `Running` with `action=15000, duration=1,
weight=75`: the distance is 9.75 km, the mean speed 9.75 km/h, and the
spent calories follow `(18 * mean_speed - 20) * weight / 1000 *
(duration * 60)`, which evaluates to 699.75. -/
theorem running_example_values :
    (Training.running 15000 1 75).get_distance = 9.75 ∧
    (Training.running 15000 1 75).get_mean_speed = 9.75 ∧
    (Training.running 15000 1 75).get_spent_calories
      = .num ((18 * 9.75 - 20) * 75 / 1000 * (1 * 60)) ∧
    ((18 * 9.75 - 20) * 75 / 1000 * (1 * 60) : ℚ) = 699.75 := by
  refine ⟨?_, ?_, ?_, by norm_num⟩ <;>
    norm_num [Training.get_spent_calories, Training.get_mean_speed,
      Training.get_distance, Training.action, Training.duration,
      Training.LEN_STEP, Training.M_IN_KM, Training.MIN_IN_HOUR]

/-- C1: on the unknown workout code `"XYZ"` the source's `read_package`
does not raise: it executes `return ValueError`, returning the exception
class itself as an ordinary (`Except.ok`) value — dispatch does not
signal an InvalidWorkoutType failure, contradicting the spec. -/
theorem read_package_unknown_code_returns_class :
    read_package "XYZ" [] = Except.ok RetVal.valueErrorClass := by
  rfl

/-- C4: the base class `Training.get_spent_calories` executes
`return NotImplementedError`: the call returns the exception class as an
ordinary value, it does not fail — contradicting the spec's "fails with
a NotImplemented error". -/
theorem base_calories_returns_class :
    Training.get_spent_calories (.base 720 1 80)
      = PyValue.notImplementedErrorClass := by
  rfl

/-- C3: for every `SportsWalking` workout with positive duration and
height, the spent calories equal
`(0.035 * weight + (mean_speed ^ 2 // height) * 0.029 * weight) *
(duration * 60)` with `//` the floor of the quotient; for
`action=9000, duration=1, weight=75, height=180` the distance and the
mean speed are 5.85, the floored term `5.85 ^ 2 // 180` is 0, and the
calories are `0.035 * 75 * 60 = 157.5`. -/
theorem sportsWalking_calories_formula :
    (∀ a d w h : ℚ, 0 < d → 0 < h →
      (Training.sportsWalking a d w h).get_spent_calories
        = .num ((0.035 * w +
            ((⌊(Training.sportsWalking a d w h).get_mean_speed ^ 2 / h⌋ : ℤ) : ℚ)
              * 0.029 * w) * (d * 60))) ∧
    (Training.sportsWalking 9000 1 75 180).get_distance = 5.85 ∧
    (Training.sportsWalking 9000 1 75 180).get_mean_speed = 5.85 ∧
    (⌊((5.85 : ℚ) ^ 2 / 180)⌋ : ℤ) = 0 ∧
    (Training.sportsWalking 9000 1 75 180).get_spent_calories
      = .num (0.035 * 75 * 60) ∧
    (0.035 * 75 * 60 : ℚ) = 157.5 := by
  refine ⟨fun a d w h _ _ => ?_, ?_, ?_, ?_, ?_, by norm_num⟩
  · simp only [Training.get_spent_calories, Training.MIN_IN_HOUR]
    congr 1
    ring
  all_goals
    norm_num [Training.get_spent_calories, Training.get_mean_speed,
      Training.get_distance, Training.action, Training.duration,
      Training.LEN_STEP, Training.M_IN_KM, Training.MIN_IN_HOUR]

/-- C3 witness: the general formula instantiated at
`action=9000, duration=1, weight=75, height=180`. -/
theorem sportsWalking_calories_formula_witness :
    (Training.sportsWalking 9000 1 75 180).get_spent_calories
      = .num ((0.035 * 75 +
          ((⌊(Training.sportsWalking 9000 1 75 180).get_mean_speed ^ 2 / 180⌋ : ℤ) : ℚ)
            * 0.029 * 75) * (1 * 60)) :=
  sportsWalking_calories_formula.1 9000 1 75 180 (by norm_num) (by norm_num)

/-- C5: for every `Swimming` workout with positive duration, the mean
speed is `length_pool * count_pool / 1000 / duration` and the spent
calories are `(mean_speed + 1.1) * (2 * weight)`; for `action=720,
duration=1, weight=80, length_pool=25, count_pool=40` the mean speed is
1 and the calories are 336. -/
theorem swimming_speed_calories_formula :
    (∀ a d w lp cp : ℚ, 0 < d →
      (Training.swimming a d w lp cp).get_mean_speed = lp * cp / 1000 / d ∧
      (Training.swimming a d w lp cp).get_spent_calories
        = .num (((Training.swimming a d w lp cp).get_mean_speed + 1.1)
            * (2 * w))) ∧
    (Training.swimming 720 1 80 25 40).get_mean_speed = 1 ∧
    (Training.swimming 720 1 80 25 40).get_spent_calories = .num 336 := by
  refine ⟨fun a d w lp cp _ => ⟨?_, ?_⟩, ?_, ?_⟩ <;>
    norm_num [Training.get_spent_calories, Training.get_mean_speed,
      Training.get_distance, Training.action, Training.duration,
      Training.LEN_STEP, Training.M_IN_KM, Training.MIN_IN_HOUR]

/-- C5 witness: the general part instantiated at
`action=720, duration=1, weight=80, length_pool=25, count_pool=40`. -/
theorem swimming_speed_calories_formula_witness :
    (Training.swimming 720 1 80 25 40).get_mean_speed = 25 * 40 / 1000 / 1 ∧
    (Training.swimming 720 1 80 25 40).get_spent_calories
      = .num (((Training.swimming 720 1 80 25 40).get_mean_speed + 1.1)
          * (2 * 80)) :=
  swimming_speed_calories_formula.1 720 1 80 25 40 (by norm_num)

/-- C6: for every `Running` workout with positive duration, the distance
is exactly `action * 0.00065` (`action * 0.65 / 1000`) and the mean
speed is that distance divided by the duration. -/
theorem running_distance_speed :
    ∀ a d w : ℚ, 0 < d →
      (Training.running a d w).get_distance = a * 0.00065 ∧
      (Training.running a d w).get_mean_speed
        = (Training.running a d w).get_distance / d := by
  intro a d w _
  constructor <;>
  · norm_num [Training.get_mean_speed, Training.get_distance,
      Training.action, Training.duration, Training.LEN_STEP,
      Training.M_IN_KM]
    try ring

/-- C6 witness: instantiated at `action=15000, duration=1, weight=75`. -/
theorem running_distance_speed_witness :
    (Training.running 15000 1 75).get_distance = 15000 * 0.00065 ∧
    (Training.running 15000 1 75).get_mean_speed
      = (Training.running 15000 1 75).get_distance / 1 :=
  running_distance_speed 15000 1 75 (by norm_num)

/-- C7: for each known code with a parameter list of the constructor's
arity (SWM: 5, RUN: 3, WLK: 4), `read_package` returns the matching
variant with the parameters taken positionally in order. -/
theorem read_package_known_codes :
    (∀ a d w lp cp : ℚ, read_package "SWM" [a, d, w, lp, cp]
        = .ok (.training (.swimming a d w lp cp))) ∧
    (∀ a d w : ℚ, read_package "RUN" [a, d, w]
        = .ok (.training (.running a d w))) ∧
    (∀ a d w h : ℚ, read_package "WLK" [a, d, w, h]
        = .ok (.training (.sportsWalking a d w h))) :=
  ⟨fun _ _ _ _ _ => rfl, fun _ _ _ => rfl, fun _ _ _ _ => rfl⟩

/-- C8: `get_message` renders exactly the fixed template with the type
name inserted verbatim, and each numeric field goes through the `.3f`
formatter, whose fractional part always has exactly three digit
characters, whatever the input's precision. -/
theorem get_message_template_three_decimals :
    (∀ m : InfoMessage, m.get_message =
      "Тип тренировки: " ++ m.training_type ++
      "; Длительность: " ++ formatFixed3 m.duration ++
      " ч.; Дистанция: " ++ formatFixed3 m.distance ++
      " км; Ср. скорость: " ++ formatFixed3 m.speed ++
      " км/ч; Потрачено ккал: " ++ formatFixed3 m.calories ++ ".") ∧
    (∀ q : ℚ, formatFixed3 q = intPart3 q ++ "." ++ fracPart3 q ∧
      (fracPart3 q).length = 3 ∧
      (fracPart3 q).toList.all Char.isDigit = true) := by
  refine ⟨fun m => rfl, fun q => ⟨rfl, ?_, ?_⟩⟩
  · exact (fracPad3_spec _ (Nat.mod_lt _ (by norm_num))).1
  · exact (fracPad3_spec _ (Nat.mod_lt _ (by norm_num))).2

/-- C9: the distance a `Swimming` summary reports comes from the
inherited base formula with `LEN_STEP = 1.38` — it equals
`action * 1.38 / 1000`, does not depend on `length_pool` or
`count_pool`, and so need not equal the reported speed times the
duration: at `action=720, duration=1, length_pool=25, count_pool=40`
the distance is 0.9936 while speed times duration is 1. -/
theorem swimming_distance_stroke_based :
    (∀ a d w lp cp lp' cp' : ℚ, 0 < d →
      ((Training.swimming a d w lp cp).show_training_info).map
          InfoMessage.distance = some (a * 1.38 / 1000) ∧
      ((Training.swimming a d w lp cp).show_training_info).map
          InfoMessage.distance
        = ((Training.swimming a d w lp' cp').show_training_info).map
            InfoMessage.distance) ∧
    ((Training.swimming 720 1 80 25 40).show_training_info).map
        InfoMessage.distance = some 0.9936 ∧
    ((Training.swimming 720 1 80 25 40).show_training_info).map
        (fun i => i.speed * i.duration) = some 1 ∧
    (0.9936 : ℚ) ≠ 1 := by
  refine ⟨fun a d w lp cp lp' cp' _ => ⟨?_, ?_⟩, ?_, ?_, by norm_num⟩ <;>
    norm_num [Training.show_training_info, Training.get_spent_calories,
      Training.get_mean_speed, Training.get_distance, Training.action,
      Training.duration, Training.LEN_STEP, Training.M_IN_KM,
      Training.MIN_IN_HOUR, Option.map]

/-- C9 witness: the general part instantiated at
`action=720, duration=1, weight=80, length_pool=25, count_pool=40`
(and `length_pool'=50, count_pool'=3`). -/
theorem swimming_distance_stroke_based_witness :
    ((Training.swimming 720 1 80 25 40).show_training_info).map
        InfoMessage.distance = some (720 * 1.38 / 1000) ∧
    ((Training.swimming 720 1 80 25 40).show_training_info).map
        InfoMessage.distance
      = ((Training.swimming 720 1 80 50 3).show_training_info).map
          InfoMessage.distance :=
  swimming_distance_stroke_based.1 720 1 80 25 40 50 3 (by norm_num)

/-- C10: a `Running` workout whose mean speed is below `20/18` km/h
burns strictly negative calories according to the code; at
`action=1000, duration=1, weight=75` the value is `-37.35`. -/
theorem running_negative_calories :
    (∀ a d w : ℚ, 0 ≤ a → 0 < d → 0 < w →
      (Training.running a d w).get_mean_speed < 20 / 18 →
      ∃ c : ℚ, (Training.running a d w).get_spent_calories = .num c ∧
        c < 0) ∧
    (Training.running 1000 1 75).get_spent_calories = .num (-37.35) ∧
    (-37.35 : ℚ) < 0 := by
  refine ⟨fun a d w _ hd hw hs => ?_, ?_, by norm_num⟩
  · refine ⟨(18 * (Training.running a d w).get_mean_speed - 20) * w / 1000
        * (d * 60), ?_, ?_⟩
    · simp [Training.get_spent_calories, Training.duration,
        Training.MIN_IN_HOUR, Training.M_IN_KM]
    · have h1 : 18 * (Training.running a d w).get_mean_speed - 20 < 0 := by
        linarith
      have h2 : (18 * (Training.running a d w).get_mean_speed - 20) * w
          / 1000 * (d * 60)
          = (18 * (Training.running a d w).get_mean_speed - 20)
            * (w / 1000 * (d * 60)) := by ring
      rw [h2]
      exact mul_neg_of_neg_of_pos h1 (by positivity)
  · norm_num [Training.get_spent_calories, Training.get_mean_speed,
      Training.get_distance, Training.action, Training.duration,
      Training.LEN_STEP, Training.M_IN_KM, Training.MIN_IN_HOUR]

/-- C10 witness: the general part instantiated at
`action=1000, duration=1, weight=75`. -/
theorem running_negative_calories_witness :
    ∃ c : ℚ, (Training.running 1000 1 75).get_spent_calories = .num c ∧
      c < 0 :=
  running_negative_calories.1 1000 1 75 (by norm_num) (by norm_num)
    (by norm_num)
    (by norm_num [Training.get_mean_speed, Training.get_distance,
      Training.action, Training.duration, Training.LEN_STEP,
      Training.M_IN_KM])

end Tracker
